import Mathlib

/-!
Verification of the data-access layer of the `pydis_site` API fragment:
the schema migration `0079_dm_embed_and_alert_fields.py` and the
model-to-representation converters in `serializers.py`.

The Python code is shallowly embedded: each per-row migration function
becomes a pure Lean function on an explicit row structure, each
serializer `validate`/`to_representation` becomes a pure function, and
raising `ValidationError(detail)` becomes returning `Except.error detail`.
Python `None` is modelled by `Option.none`; Python truthiness of each
field is modelled according to the field's runtime type (datetimes are
always truthy when present, booleans are truthy iff `True`, strings are
truthy iff non-empty).
-/

/-! ## Migration 0079: data model -/

/-- A `FilterList` row, restricted to the columns touched by migration
0079 (`name`, the new `send_alert` and `dm_embed`, and the legacy
`server_message_embed` reset by the reverse migration). `Option` models
SQL/Python null. -/
structure FilterListRow where
  name : String
  send_alert : Option Bool
  dm_embed : Option String
  server_message_embed : Option String
deriving DecidableEq, Repr

/-- The `change_map` dict of `migrate_filterlist`, as an association list. -/
def change_map : List (String × Bool) :=
  [("token", true), ("domain", true), ("invite", true),
   ("extension", false), ("redirect", false)]

/-- Python `dict.get(key)`: the value under `key`, or `None` when absent. -/
def dict_get (m : List (String × Bool)) (key : String) : Option Bool :=
  (m.find? fun p => p.fst == key).map Prod.snd

/-- The per-row body of `migrate_filterlist`: set
`send_alert = change_map.get(name)` and `dm_embed = ""`. -/
def migrate_filterlist (row : FilterListRow) : FilterListRow :=
  { row with
    send_alert := dict_get change_map row.name
    dm_embed := some "" }

/-- The per-row body of `unmigrate_filterlist`: set `send_alert = True`
and `server_message_embed = None`. -/
def unmigrate_filterlist (row : FilterListRow) : FilterListRow :=
  { row with
    send_alert := some true
    server_message_embed := none }

/-- The fixed lookup as the spec words it: token, domain and invite map
to true; extension and redirect map to false; any unmapped name maps to
null. Stated separately from the association-list `change_map` so the
code path can be compared against it. -/
def spec_lookup : String → Option Bool
  | "token" => some true
  | "domain" => some true
  | "invite" => some true
  | "extension" => some false
  | "redirect" => some false
  | _ => none

/-! ## Migration 0079: schema operations -/

/-- The kind of a Django column added by an `AddField` operation:
`BooleanField` (with an optional declared default) or `CharField` with
its `max_length`. -/
inductive FieldKind
  | booleanField (default : Option Bool)
  | charField (max_length : Nat)
deriving DecidableEq, Repr

/-- A Django `AddField` operation: target model, column name, column
kind and nullability (`null=True` when declared, Django's default
`null=False` otherwise). -/
structure AddFieldOp where
  model_name : String
  name : String
  kind : FieldKind
  null : Bool
deriving DecidableEq, Repr

/-- The four `AddField` operations of `Migration.operations` in
`0079_dm_embed_and_alert_fields.py`, in source order (the fifth
operation, `RunPython`, is embedded as `migrate_filterlist` /
`unmigrate_filterlist`). -/
def migration_operations : List AddFieldOp :=
  [ { model_name := "filter", name := "send_alert",
      kind := .booleanField none, null := true },
    { model_name := "filter", name := "dm_embed",
      kind := .charField 2000, null := true },
    { model_name := "filterlist", name := "send_alert",
      kind := .booleanField (some true), null := false },
    { model_name := "filterlist", name := "dm_embed",
      kind := .charField 2000, null := true } ]

/-- The `AddField` operation of migration 0079 targeting the given model
and column name, when there is one. -/
def added_field (model column : String) : Option AddFieldOp :=
  migration_operations.find? fun op =>
    op.model_name == model && op.name == column

/-! ## Migration 0079: theorems -/

/-- The association-list lookup in `change_map` agrees with the fixed
lookup as the spec words it, for every name. -/
theorem dict_get_change_map (s : String) :
    dict_get change_map s = spec_lookup s := by
  unfold dict_get change_map spec_lookup
  split
  · decide
  · decide
  · decide
  · decide
  · decide
  · rw [List.find?_eq_none.mpr]
    · rfl
    intro p hp
    fin_cases hp <;> simp_all [beq_iff_eq, @eq_comm String]

/-- C1. Forward migration backfill: for every `FilterList` row, the
forward migration sets `send_alert` to the fixed lookup applied to the
row's name (token, domain, invite ↦ true; extension, redirect ↦ false;
unmapped names ↦ null) and sets `dm_embed` to the empty string. -/
theorem C1_forward_backfill (row : FilterListRow) :
    (migrate_filterlist row).send_alert = spec_lookup row.name ∧
    (migrate_filterlist row).dm_embed = some "" :=
  ⟨dict_get_change_map row.name, rfl⟩

/-- C8. Reverse migration: every `FilterList` row ends with
`send_alert = true` and `server_message_embed = null`, regardless of its
prior values. -/
theorem C8_reverse_resets (row : FilterListRow) :
    (unmigrate_filterlist row).send_alert = some true ∧
    (unmigrate_filterlist row).server_message_embed = none :=
  ⟨rfl, rfl⟩

/-- C9. Idempotence of the forward backfill: applying the per-row
forward transformation twice produces exactly the same row as applying
it once. -/
theorem C9_forward_idempotent (row : FilterListRow) :
    migrate_filterlist (migrate_filterlist row) = migrate_filterlist row := rfl

/-- C7 counterexample. The claim asserts `send_alert` is added as a
nullable boolean on both models, but the operation targeting
`filterlist` declares `BooleanField(default=True)` with Django's default
`null=False`: the column is not nullable. -/
theorem C7_counterexample :
    added_field "filterlist" "send_alert" =
      some { model_name := "filterlist", name := "send_alert",
             kind := .booleanField (some true), null := false } ∧
    ¬ (∀ op ∈ migration_operations, op.name = "send_alert" → op.null = true) := by
  exact ⟨rfl, by decide⟩

/-- C7 amended. The forward migration adds to `Filter` a nullable
boolean `send_alert` and a nullable max-length-2000 text `dm_embed`; to
`FilterList` it adds a non-nullable boolean `send_alert` defaulting to
true and a nullable max-length-2000 text `dm_embed`; these four are its
only column additions and the column names are exactly `send_alert` and
`dm_embed`. -/
theorem C7_amended_schema :
    added_field "filter" "send_alert" =
      some ⟨"filter", "send_alert", .booleanField none, true⟩ ∧
    added_field "filter" "dm_embed" =
      some ⟨"filter", "dm_embed", .charField 2000, true⟩ ∧
    added_field "filterlist" "send_alert" =
      some ⟨"filterlist", "send_alert", .booleanField (some true), false⟩ ∧
    added_field "filterlist" "dm_embed" =
      some ⟨"filterlist", "dm_embed", .charField 2000, true⟩ ∧
    migration_operations.length = 4 := by
  decide

/-! ## Serializers: validation model

`raise ValidationError(detail)` is embedded as `Except.error detail`,
where `detail` keeps the exact shape written at the raise site: a
mapping from field name to either a bare string or a list of strings. -/

/-- The value attached to a field key in a `ValidationError` detail
dict: a bare reason string, or a list of reason strings, exactly as
written at the raise site. -/
inductive ErrDetail
  | single (msg : String)
  | many (msgs : List String)
deriving DecidableEq, Repr

/-- A `ValidationError` detail dict: field name to detail value. -/
abbrev ErrorDict := List (String × ErrDetail)

/-- Whether every field value of a raised detail dict is a list of
strings (vacuously true on success). -/
def error_values_are_lists {α : Type} : Except ErrorDict α → Bool
  | .error ds => ds.all fun p => match p.snd with | .many _ => true | .single _ => false
  | .ok _ => true

/-- Whether every field value of a raised detail dict is a bare string
(vacuously true on success). -/
def error_values_are_bare {α : Type} : Except ErrorDict α → Bool
  | .error ds => ds.all fun p => match p.snd with | .single _ => true | .many _ => false
  | .ok _ => true

/-- The validated attribute dict reaching `InfractionSerializer.validate`.
`Option` models an absent key / `None` value (`attrs.get(...)`). The
`expires_at` value is a datetime, which in Python is truthy exactly when
present, so it is modelled by an abstract timestamp and its truthiness
by `Option.isSome`. -/
structure InfractionAttrs where
  type : Option String
  expires_at : Option Nat
  active : Option Bool
  user : Option Nat
  actor : Option Nat
  reason : Option String
  hidden : Option Bool
deriving DecidableEq, Repr

/-- `InfractionSerializer.validate`: reject expiring kick/warning
infractions (error keyed `expires_at`, value a list with one f-string),
then reject hidden superstar infractions (error keyed `hidden`),
otherwise return `attrs` unchanged. -/
def InfractionSerializer.validate (attrs : InfractionAttrs) :
    Except ErrorDict InfractionAttrs :=
  let infr_type := attrs.type
  let expires_at := attrs.expires_at
  if expires_at.isSome && (infr_type == some "kick" || infr_type == some "warning") then
    .error [("expires_at", .many [infr_type.getD "" ++ " infractions cannot expire."])]
  else
    let hidden := attrs.hidden
    if hidden == some true && infr_type == some "superstar" then
      .error [("hidden", .many [infr_type.getD "" ++ " infractions cannot be hidden."])]
    else
      .ok attrs

/-- The validated attribute dict reaching `NominationSerializer.validate`.
Python truthiness: `active` (a bool or `None`) is truthy iff `some true`;
`unnominate_reason` (a string or `None`) is truthy iff present and
non-empty. -/
structure NominationAttrs where
  active : Option Bool
  actor : Option Nat
  reason : Option String
  user : Option Nat
  unnominate_reason : Option String
deriving DecidableEq, Repr

/-- `NominationSerializer.validate`: reject an active nomination with a
truthy `unnominate_reason` (error keyed `unnominate_reason`, value a
bare string), otherwise return `attrs` unchanged. -/
def NominationSerializer.validate (attrs : NominationAttrs) :
    Except ErrorDict NominationAttrs :=
  let active := attrs.active
  let unnominate_reason := attrs.unnominate_reason
  if active == some true && !(unnominate_reason.getD "" == "") then
    .error [("unnominate_reason",
      .single "An active nomination can\x27t have an unnominate reason")]
  else
    .ok attrs

/-! ## Serializer validation theorems -/

/-- C2. Every Infraction input whose type is kick or warning and whose
`expires_at` is present and non-null is rejected with a
`ValidationError` keyed on `expires_at`; no such input is accepted. -/
theorem C2_infraction_expiry_rejected (attrs : InfractionAttrs)
    (htype : attrs.type = some "kick" ∨ attrs.type = some "warning")
    (hexp : attrs.expires_at.isSome) :
    InfractionSerializer.validate attrs =
      .error [("expires_at",
        ErrDetail.many [attrs.type.getD "" ++ " infractions cannot expire."])] := by
  unfold InfractionSerializer.validate
  rcases htype with h | h <;> simp [h, hexp]

/-- Witness for C2 at the concrete input type = kick, expires_at = 5. -/
theorem C2_witness :
    InfractionSerializer.validate
      ⟨some "kick", some 5, none, none, none, none, none⟩ =
      .error [("expires_at",
        ErrDetail.many [(some "kick" : Option String).getD ""
          ++ " infractions cannot expire."])] :=
  C2_infraction_expiry_rejected _ (Or.inl rfl) rfl

/-- C4. An active Nomination with a non-empty `unnominate_reason` is
rejected with a `ValidationError` keyed on `unnominate_reason`, and an
input with `active = false` or an empty `unnominate_reason` is not
rejected by this rule. -/
theorem C4_nomination_active_reason (attrs : NominationAttrs) :
    (attrs.active = some true →
      ∀ s, attrs.unnominate_reason = some s → s ≠ "" →
        NominationSerializer.validate attrs =
          .error [("unnominate_reason",
            ErrDetail.single "An active nomination can\x27t have an unnominate reason")]) ∧
    ((attrs.active = some false ∨ attrs.unnominate_reason = some "") →
      NominationSerializer.validate attrs = .ok attrs) := by
  constructor
  · intro ha s hs hne
    unfold NominationSerializer.validate
    simp [ha, hs, hne]
  · intro h
    unfold NominationSerializer.validate
    rcases h with h | h <;> simp [h]

/-- Witness for C4: the rejecting branch at active = true with reason
"spam", and the accepting branch at active = false with the same
reason. -/
theorem C4_witness :
    NominationSerializer.validate ⟨some true, none, none, none, some "spam"⟩ =
      .error [("unnominate_reason",
        ErrDetail.single "An active nomination can\x27t have an unnominate reason")] ∧
    NominationSerializer.validate ⟨some false, none, none, none, some "spam"⟩ =
      .ok ⟨some false, none, none, none, some "spam"⟩ :=
  ⟨(C4_nomination_active_reason _).1 rfl "spam" rfl (by decide),
   (C4_nomination_active_reason _).2 (Or.inl rfl)⟩

/-- C5 counterexample. `NominationSerializer.validate` raises its
`ValidationError` with a bare string as the field value, not a list of
strings: at active = true, unnominate_reason = "spam" the detail value
is `ErrDetail.single ...`, so the claim that no converter ever produces
a bare string value is false. -/
theorem C5_counterexample :
    NominationSerializer.validate ⟨some true, none, none, none, some "spam"⟩ =
      .error [("unnominate_reason",
        ErrDetail.single "An active nomination can\x27t have an unnominate reason")] ∧
    error_values_are_lists
      (NominationSerializer.validate ⟨some true, none, none, none, some "spam"⟩) = false :=
  ⟨rfl, rfl⟩

/-- C5 amended. Every validation failure raised by
`InfractionSerializer.validate` maps the field name to a list of reason
strings, but the failure raised by `NominationSerializer.validate` maps
its field name to a bare string (normalised into a list only by the
surrounding framework, outside this code). -/
theorem C5_amended_error_shape :
    (∀ a : InfractionAttrs,
      error_values_are_lists (InfractionSerializer.validate a) = true) ∧
    (∀ n : NominationAttrs,
      error_values_are_bare (NominationSerializer.validate n) = true) := by
  constructor
  · intro a
    unfold InfractionSerializer.validate
    dsimp only
    split
    · rfl
    · split
      · rfl
      · rfl
  · intro n
    unfold NominationSerializer.validate
    dsimp only
    split
    · rfl
    · rfl

/-- C10. When `InfractionSerializer.validate` or
`NominationSerializer.validate` does not raise, it returns the input
attribute dict unchanged: acceptance never adds, removes or rewrites an
attribute. -/
theorem C10_validate_frame (ia : InfractionAttrs) (na : NominationAttrs) :
    ((InfractionSerializer.validate ia).isOk = true →
      InfractionSerializer.validate ia = .ok ia) ∧
    ((NominationSerializer.validate na).isOk = true →
      NominationSerializer.validate na = .ok na) := by
  constructor
  · intro h
    unfold InfractionSerializer.validate at h ⊢
    dsimp only at h ⊢
    split at h
    · simp [Except.isOk, Except.toBool] at h
    · split at h
      · simp [Except.isOk, Except.toBool] at h
      · rename_i h1 h2
        rw [if_neg h1, if_neg h2]
  · intro h
    unfold NominationSerializer.validate at h ⊢
    dsimp only at h ⊢
    split at h
    · simp [Except.isOk, Except.toBool] at h
    · rename_i h1
      rw [if_neg h1]

/-- Witness for C10: both validators return their accepted input
unchanged at concrete accepted inputs. -/
theorem C10_witness :
    InfractionSerializer.validate ⟨some "ban", some 3, none, none, none, none, none⟩ =
      .ok ⟨some "ban", some 3, none, none, none, none, none⟩ ∧
    NominationSerializer.validate ⟨some true, none, none, none, some ""⟩ =
      .ok ⟨some true, none, none, none, some ""⟩ :=
  ⟨(C10_validate_frame ⟨some "ban", some 3, none, none, none, none, none⟩
      ⟨some true, none, none, none, some ""⟩).1 (by decide),
   (C10_validate_frame ⟨some "ban", some 3, none, none, none, none, none⟩
      ⟨some true, none, none, none, some ""⟩).2 (by decide)⟩

/-! ## Serializers: representation round-trips -/

/-- An interchange payload: either a keyed structure (a dict of field
name to string value) or a bare scalar string. -/
inductive Payload
  | fields (kvs : List (String × String))
  | scalar (s : String)
deriving DecidableEq, Repr

/-- Dict lookup in a keyed payload. -/
def lookup_field (kvs : List (String × String)) (key : String) : Option String :=
  (kvs.find? fun p => p.fst == key).map Prod.snd

/-- A `BotSetting` record, carrying the two fields declared by
`BotSettingSerializer.Meta.fields`; the JSON `data` column is abstracted
to its serialised text. -/
structure BotSetting where
  name : String
  data : String
deriving DecidableEq, Repr

/-- `BotSettingSerializer` serialisation: the inherited `ModelSerializer`
behaviour, a keyed structure holding exactly the declared fields. -/
def BotSettingSerializer.to_representation (record : BotSetting) : Payload :=
  .fields [("name", record.name), ("data", record.data)]

/-- `BotSettingSerializer` deserialisation: the inherited
`ModelSerializer` behaviour, which requires a keyed structure (a
non-dict input fails with `non_field_errors`) carrying the declared
fields. -/
def BotSettingSerializer.run_validation : Payload → Except ErrorDict BotSetting
  | .fields kvs =>
      match lookup_field kvs "name", lookup_field kvs "data" with
      | some n, some d => .ok { name := n, data := d }
      | none, _ => .error [("name", .many ["This field is required."])]
      | some _, none => .error [("data", .many ["This field is required."])]
  | .scalar _ =>
      .error [("non_field_errors",
        .many ["Invalid data. Expected a dictionary, but got str."])]

/-- An `OffTopicChannelName` record: the single declared field. -/
structure OffTopicChannelName where
  name : String
deriving DecidableEq, Repr

/-- `OffTopicChannelNameSerializer.to_representation`: overridden to
return only `obj.name`, a bare scalar instead of a keyed structure. -/
def OffTopicChannelNameSerializer.to_representation (obj : OffTopicChannelName) : Payload :=
  .scalar obj.name

/-- `OffTopicChannelNameSerializer` deserialisation: the inherited
`ModelSerializer` behaviour is not overridden, so it still requires a
keyed structure carrying `name`. -/
def OffTopicChannelNameSerializer.run_validation :
    Payload → Except ErrorDict OffTopicChannelName
  | .fields kvs =>
      match lookup_field kvs "name" with
      | some n => .ok { name := n }
      | none => .error [("name", .many ["This field is required."])]
  | .scalar _ =>
      .error [("non_field_errors",
        .many ["Invalid data. Expected a dictionary, but got str."])]

/-- C3 counterexample. The round-trip fails for
`OffTopicChannelNameSerializer`: serialising the record named
"general-chat" yields the bare scalar "general-chat", and validating
that bare scalar back is rejected (a dictionary is required), so the
claim quantified over all converter variants is false. -/
theorem C3_counterexample :
    OffTopicChannelNameSerializer.run_validation
      (OffTopicChannelNameSerializer.to_representation ⟨"general-chat"⟩) =
      .error [("non_field_errors",
        ErrDetail.many ["Invalid data. Expected a dictionary, but got str."])] ∧
    OffTopicChannelNameSerializer.run_validation
      (OffTopicChannelNameSerializer.to_representation ⟨"general-chat"⟩) ≠
      .ok ⟨"general-chat"⟩ :=
  ⟨rfl, fun h => nomatch h⟩

/-- C3 amended. For keyed converters the round-trip holds: every
`BotSetting` record serialises to a keyed payload that validates back to
exactly the original record. For `OffTopicChannelNameSerializer` it
fails: every record serialises to a bare scalar, which validation
rejects with `non_field_errors`. -/
theorem C3_amended_roundtrip :
    (∀ record : BotSetting,
      BotSettingSerializer.run_validation
        (BotSettingSerializer.to_representation record) = .ok record) ∧
    (∀ obj : OffTopicChannelName,
      OffTopicChannelNameSerializer.run_validation
        (OffTopicChannelNameSerializer.to_representation obj) =
        .error [("non_field_errors",
          ErrDetail.many ["Invalid data. Expected a dictionary, but got str."])]) := by
  constructor
  · intro record
    rfl
  · intro obj
    rfl

/-! ## MessageDeletionContext nested creation -/

/-- A validated child message payload inside `deletedmessage_set`
(`deletion_context` omitted: it is overridden in `create`). -/
structure DeletedMessageAttrs where
  author : Nat
  channel_id : Nat
  content : String
  embeds : List String
deriving DecidableEq, Repr

/-- A persisted `MessageDeletionContext` record. -/
structure MessageDeletionContextRow where
  id : Nat
  actor : Nat
deriving DecidableEq, Repr

/-- A persisted `DeletedMessage` record, with its foreign key
`deletion_context`. -/
structure DeletedMessageRow where
  id : Nat
  author : Nat
  channel_id : Nat
  content : String
  embeds : List String
  deletion_context : Nat
deriving DecidableEq, Repr

/-- The `validated_data` of `MessageDeletionContextSerializer.create`:
the context's own attributes plus the embedded child payload list. -/
structure MDCValidatedData where
  actor : Nat
  deletedmessage_set : List DeletedMessageAttrs
deriving DecidableEq, Repr

/-- The two tables touched by the nested create, with their id
sequences. Records are appended in creation order. -/
structure Database where
  contexts : List MessageDeletionContextRow
  messages : List DeletedMessageRow
  next_context_id : Nat
  next_message_id : Nat
deriving DecidableEq, Repr

/-- `DeletedMessage.objects.create(deletion_context=..., **message)`:
insert one child row referencing context `cid`. -/
def create_deleted_message (db : Database) (cid : Nat) (m : DeletedMessageAttrs) :
    Database :=
  { db with
    messages := db.messages ++
      [{ id := db.next_message_id, author := m.author, channel_id := m.channel_id,
         content := m.content, embeds := m.embeds, deletion_context := cid }]
    next_message_id := db.next_message_id + 1 }

/-- `MessageDeletionContextSerializer.create`: pop `deletedmessage_set`,
create the parent context first, then create each child message
referencing the new context's id; return the new context. -/
def MessageDeletionContextSerializer.create (db : Database)
    (validated_data : MDCValidatedData) : Database × MessageDeletionContextRow :=
  let messages := validated_data.deletedmessage_set
  let deletion_context : MessageDeletionContextRow :=
    { id := db.next_context_id, actor := validated_data.actor }
  let db1 : Database := { db with
    contexts := db.contexts ++ [deletion_context]
    next_context_id := db.next_context_id + 1 }
  (messages.foldl (fun acc m => create_deleted_message acc deletion_context.id m) db1,
   deletion_context)

/-- The rows produced by creating the child payloads `ms` in order,
with ids starting at `start_id`, all referencing context `cid`. -/
def created_rows (start_id cid : Nat) : List DeletedMessageAttrs → List DeletedMessageRow
  | [] => []
  | m :: ms =>
      { id := start_id, author := m.author, channel_id := m.channel_id,
        content := m.content, embeds := m.embeds, deletion_context := cid }
        :: created_rows (start_id + 1) cid ms

/-- Creating the children one by one appends exactly `created_rows` to
the message table and leaves the context table untouched. -/
theorem foldl_create_messages (ms : List DeletedMessageAttrs) (d : Database) (cid : Nat) :
    (ms.foldl (fun acc m => create_deleted_message acc cid m) d).messages =
      d.messages ++ created_rows d.next_message_id cid ms ∧
    (ms.foldl (fun acc m => create_deleted_message acc cid m) d).contexts = d.contexts := by
  induction ms generalizing d with
  | nil => simp [created_rows]
  | cons m ms ih =>
    rw [List.foldl_cons]
    rcases ih (create_deleted_message d cid m) with ⟨h1, h2⟩
    constructor
    · rw [h1]
      simp [create_deleted_message, created_rows]
    · exact h2.trans rfl

/-- One created child row per child payload. -/
theorem created_rows_length (ms : List DeletedMessageAttrs) (start_id cid : Nat) :
    (created_rows start_id cid ms).length = ms.length := by
  induction ms generalizing start_id with
  | nil => rfl
  | cons m ms ih => simp [created_rows, ih]

/-- Every created child row references context `cid`. -/
theorem created_rows_reference (ms : List DeletedMessageAttrs) (start_id cid : Nat) :
    ((created_rows start_id cid ms).all fun r => r.deletion_context == cid) = true := by
  induction ms generalizing start_id with
  | nil => rfl
  | cons m ms ih => simp [created_rows, List.all_cons, ih]

/-- C6. Nested creation: for every database state and validated payload
with `n` child messages, `MessageDeletionContextSerializer.create` adds
exactly one context record (the parent, appended before any child is
created), adds exactly `n` message records all referencing the new
context's id, and in particular the payload
`{actor: 1, deletedmessage_set: [{author: 2, channel_id: 100, content: "hi", embeds: []}]}`
on an empty database produces one context and exactly one linked
message. -/
theorem C6_nested_creation (db : Database) (vd : MDCValidatedData) :
    (MessageDeletionContextSerializer.create db vd).2 =
      { id := db.next_context_id, actor := vd.actor } ∧
    (MessageDeletionContextSerializer.create db vd).1.contexts =
      db.contexts ++ [(MessageDeletionContextSerializer.create db vd).2] ∧
    (MessageDeletionContextSerializer.create db vd).1.messages =
      db.messages ++
        created_rows db.next_message_id db.next_context_id vd.deletedmessage_set ∧
    (created_rows db.next_message_id db.next_context_id vd.deletedmessage_set).length =
      vd.deletedmessage_set.length ∧
    ((created_rows db.next_message_id db.next_context_id vd.deletedmessage_set).all
      fun r => r.deletion_context == db.next_context_id) = true ∧
    MessageDeletionContextSerializer.create ⟨[], [], 1, 1⟩ ⟨1, [⟨2, 100, "hi", []⟩]⟩ =
      (⟨[⟨1, 1⟩], [⟨1, 2, 100, "hi", [], 1⟩], 2, 2⟩, ⟨1, 1⟩) := by
  refine ⟨rfl, ?_, ?_, created_rows_length _ _ _, created_rows_reference _ _ _, rfl⟩
  · exact (foldl_create_messages _ _ _).2
  · exact (foldl_create_messages _ _ _).1
